import Mathlib

/-!
Shallow embedding of the brokerage exchange subsystem.

Numeric `Decimal` fields are modelled as exact rationals (`ℚ`); timestamps
are abstract clock values (`Nat`) passed explicitly to the operations that
stamp them.  Fallible Python methods (those that `raise`) are embedded as
`Except`-valued functions; on an error the function returns no updated
record, mirroring the fact that the raising call leaves no persisted
mutation (the surrounding `transaction.atomic` rolls back).
-/

namespace Brokerage

/-! ## Order model (src/be/exchange/models/order.py) -/

inductive OrderSide where
  | buy
  | sell
deriving DecidableEq, Repr

inductive OrderType where
  | market
  | limit
  | stop
  | stopLimit
deriving DecidableEq, Repr

/-- The seven order statuses of `Order.ORDER_STATUS`.  The Python string
`'partial'` is rendered `partiallyFilled` (`partial` is a Lean keyword). -/
inductive OrderStatus where
  | pending
  | submitted
  | partiallyFilled
  | filled
  | cancelled
  | rejected
  | expired
deriving DecidableEq, Repr

/-- The fields of the `Order` Django model that take part in the order
lifecycle.  `price` is the optional limit price, `averageFillPrice` is
`NULL` (`none`) until the first fill. -/
structure Order where
  side : OrderSide
  orderType : OrderType
  quantity : ℚ
  price : Option ℚ
  filledQuantity : ℚ
  averageFillPrice : Option ℚ
  status : OrderStatus
  submittedAt : Option ℕ
  filledAt : Option ℕ
  cancelledAt : Option ℕ
deriving DecidableEq, Repr

namespace Order

/-- `Order.remaining_quantity`: `self.quantity - self.filled_quantity`. -/
def remainingQuantity (o : Order) : ℚ :=
  o.quantity - o.filledQuantity

/-- `Order.is_fully_filled`: `self.filled_quantity >= self.quantity`. -/
def isFullyFilled (o : Order) : Bool :=
  o.quantity ≤ o.filledQuantity

/-- `Order.is_active`: `self.status in ['pending', 'submitted', 'partial']`. -/
def isActive (o : Order) : Bool :=
  o.status = OrderStatus.pending ∨ o.status = OrderStatus.submitted ∨
    o.status = OrderStatus.partiallyFilled

/-- The terminal statuses of the glossary: filled, cancelled, rejected,
expired. -/
def isTerminal (o : Order) : Bool :=
  o.status = OrderStatus.filled ∨ o.status = OrderStatus.cancelled ∨
    o.status = OrderStatus.rejected ∨ o.status = OrderStatus.expired

/-- `Order.submit`: unconditionally sets `status = 'submitted'` and stamps
`submitted_at`.  The Python method has no state guard. -/
def submit (o : Order) (now : ℕ) : Order :=
  { o with status := OrderStatus.submitted, submittedAt := some now }

/-- The errors `Order.fill` / `Order.cancel` can raise.  `invalidState` and
`overFill` are the two explicit `ValueError`s; `divisionUndefined` is the
`decimal` exception raised by `total_filled_value / self.filled_quantity`
when the updated filled quantity is zero. -/
inductive FillError where
  | invalidState
  | overFill
  | divisionUndefined
deriving DecidableEq, Repr

/-- `Order.fill(fill_quantity, fill_price)`: guard on `is_active`, guard on
`fill_quantity > remaining_quantity`, then update the weighted average fill
price, the filled quantity, and the status (`filled` + stamp when fully
filled, else `partial`). -/
def fill (o : Order) (fillQuantity fillPrice : ℚ) (now : ℕ) :
    Except FillError Order :=
  if ¬ o.isActive then
    Except.error FillError.invalidState
  else if o.remainingQuantity < fillQuantity then
    Except.error FillError.overFill
  else
    let totalFilledValue :=
      o.filledQuantity * (o.averageFillPrice.getD 0) + fillQuantity * fillPrice
    let newFilled := o.filledQuantity + fillQuantity
    if newFilled = 0 then
      Except.error FillError.divisionUndefined
    else
      let o' := { o with
        filledQuantity := newFilled,
        averageFillPrice := some (totalFilledValue / newFilled) }
      Except.ok (if o'.isFullyFilled then
          { o' with status := OrderStatus.filled, filledAt := some now }
        else
          { o' with status := OrderStatus.partiallyFilled })

/-- `Order.cancel`: fails on an inactive order, else transitions to
`cancelled` and stamps `cancelled_at`. -/
def cancel (o : Order) (now : ℕ) : Except FillError Order :=
  if ¬ o.isActive then
    Except.error FillError.invalidState
  else
    Except.ok { o with status := OrderStatus.cancelled, cancelledAt := some now }

/-- `Order.reject`: unconditionally sets `status = 'rejected'`; no guard. -/
def reject (o : Order) : Order :=
  { o with status := OrderStatus.rejected }

end Order

/-! ## Per-symbol price state
(src/be/exchange/services/exchange_simulator.py) -/

/-- One entry of `ExchangeSimulator.price_data`: the per-symbol mutable
price state. -/
structure PriceState where
  currentPrice : ℚ
  previousClose : ℚ
  dailyHigh : ℚ
  dailyLow : ℚ
  volume : ℤ
  trend : ℤ
deriving DecidableEq, Repr

/-- The payload dict returned by `_generate_price_update`. -/
structure PriceUpdate where
  price : ℚ
  change : ℚ
  changePercent : ℚ
  volume : ℤ
  bid : ℚ
  ask : ℚ
  high : ℚ
  low : ℚ
deriving DecidableEq, Repr

/-- The random draws one tick consumes, passed in explicitly:
`priceChange` is `base_change + trend_factor` (any real draw),
`spreadPercent` the uniform spread fraction, `volumeChange` the uniform
volume delta, and `newTrend` is `some t` when the 5%-probability trend
resample fires. -/
structure TickDraw where
  priceChange : ℚ
  spreadPercent : ℚ
  volumeChange : ℤ
  newTrend : Option ℤ
deriving DecidableEq, Repr

/-- `ExchangeSimulator._initialize_price_data` for one symbol with base
price `base`: current = previous close = base, daily high = base·1.02,
daily low = base·0.98, and the drawn initial volume and trend. -/
def initPriceState (base : ℚ) (volume : ℤ) (trend : ℤ) : PriceState :=
  { currentPrice := base
    previousClose := base
    dailyHigh := base * (102 / 100)
    dailyLow := base * (98 / 100)
    volume := volume
    trend := trend }

/-- `ExchangeSimulator._generate_price_update` for one symbol: clamp the
candidate price at 1% of the prior price, update the running high/low,
derive change, bid/ask from the spread, and the volume floor of 10,000;
resample the trend when the draw says so. -/
def generatePriceUpdate (s : PriceState) (d : TickDraw) :
    PriceState × PriceUpdate :=
  let newPrice := max (s.currentPrice + d.priceChange)
    (s.currentPrice * (1 / 100))
  let newHigh := max s.dailyHigh newPrice
  let newLow := min s.dailyLow newPrice
  let change := newPrice - s.previousClose
  let changePercent :=
    if s.previousClose ≠ 0 then change / s.previousClose * 100 else 0
  let spread := newPrice * d.spreadPercent
  let bid := newPrice - spread / 2
  let ask := newPrice + spread / 2
  let newVolume := max 10000 (s.volume + d.volumeChange)
  let s' : PriceState :=
    { currentPrice := newPrice
      previousClose := s.previousClose
      dailyHigh := newHigh
      dailyLow := newLow
      volume := newVolume
      trend := d.newTrend.getD s.trend }
  (s', { price := newPrice, change := change, changePercent := changePercent
         volume := newVolume, bid := bid, ask := ask
         high := newHigh, low := newLow })

/-- Iterate `_generate_price_update` over a sequence of tick draws. -/
def tickSeq (s : PriceState) (draws : List TickDraw) : PriceState :=
  draws.foldl (fun st d => (generatePriceUpdate st d).1) s

/-! ## Order execution services
(src/be/exchange/services/order_service.py and
src/be/exchange/services/exchange_simulator.py) -/

/-- The bid/ask of the most recent `MarketDataSnapshot` for a symbol. -/
structure MarketDataSnapshot where
  bid : ℚ
  ask : ℚ
deriving DecidableEq, Repr

/-- One `OrderExecution` record. -/
structure OrderExecution where
  quantity : ℚ
  price : ℚ
  commission : ℚ
deriving DecidableEq, Repr

/-- `OrderService.execute_order`: create the execution record, apply
`Order.fill`, and publish.  The whole body runs in `transaction.atomic`, so
if `fill` raises the execution record is rolled back and the caller sees
the error with no persisted mutation. -/
def executeOrder (o : Order) (quantity price commission : ℚ) (now : ℕ) :
    Except Order.FillError (OrderExecution × Order) :=
  match o.fill quantity price now with
  | Except.ok o' =>
      Except.ok ({ quantity := quantity, price := price
                   commission := commission }, o')
  | Except.error e => Except.error e

/-- `OrderService.simulate_market_order_execution`: look up the current
snapshot (`none` when the symbol has no market data), execute at the ask
for a buy and the bid for a sell, for `order.quantity`, with commission
`min(9.99, order.quantity · price · 0.001)`.  Exceptions (including a
failing `fill`) are caught and turned into `None` with no mutation. -/
def simulateMarketOrderExecution (o : Order)
    (marketData : Option MarketDataSnapshot) (now : ℕ) :
    Option (OrderExecution × Order) :=
  match marketData with
  | none => none
  | some m =>
      let executionPrice :=
        match o.side with
        | OrderSide.buy => m.ask
        | OrderSide.sell => m.bid
      let commission :=
        min (999 / 100 : ℚ) (o.quantity * executionPrice * (1 / 1000))
      match executeOrder o o.quantity executionPrice commission now with
      | Except.ok result => some result
      | Except.error _ => none

/-- `ExchangeSimulator._check_limit_order`: trigger a buy when the current
price is ≤ the limit price and a sell when it is ≥, and execute the
remaining quantity at the limit price with commission
`min(9.99, remaining · limit · 0.001)`.  An order without a price makes the
Python comparison raise, which the surrounding handler swallows (`none`);
a failing `fill` is likewise swallowed. -/
def checkLimitOrder (o : Order) (currentPrice : ℚ) (now : ℕ) :
    Option (OrderExecution × Order) :=
  match o.price with
  | none => none
  | some limitPrice =>
      let shouldExecute : Bool :=
        match o.side with
        | OrderSide.buy => currentPrice ≤ limitPrice
        | OrderSide.sell => limitPrice ≤ currentPrice
      if shouldExecute then
        let commission :=
          min (999 / 100 : ℚ)
            (o.remainingQuantity * limitPrice * (1 / 1000))
        match executeOrder o o.remainingQuantity limitPrice commission now with
        | Except.ok result => some result
        | Except.error _ => none
      else none

/-! ## WebSocket consumer
(src/be/exchange/consumers/market_data_consumer.py) -/

/-- ASCII upper-casing of one character, as Python's `str.upper` acts on
the ASCII symbol strings this system uses. -/
def upperChar (c : Char) : Char :=
  if 'a' ≤ c ∧ c ≤ 'z' then Char.ofNat (c.toNat - 32) else c

/-- Python `str.upper` restricted to ASCII: upper-case every character. -/
def upper (s : String) : String :=
  ⟨s.data.map upperChar⟩

/-- ASCII lower-casing of one character, as Python's `str.lower`. -/
def lowerChar (c : Char) : Char :=
  if 'A' ≤ c ∧ c ≤ 'Z' then Char.ofNat (c.toNat + 32) else c

/-- Python `str.lower` restricted to ASCII. -/
def lower (s : String) : String :=
  ⟨s.data.map lowerChar⟩

/-- The mutable state one `MarketDataConsumer` session sees: its
authenticated user (`None` until `auth` succeeds), its in-memory
`subscribed_symbols` set, the active `SymbolSubscription` rows
(`(user_id, symbol)` pairs with `is_active=True`), and the orders this
session has placed through `OrderService`. -/
structure ConsumerState where
  user : Option ℕ
  subscribedSymbols : List String
  activeSubscriptionRows : List (ℕ × String)
  placedOrders : List Order
deriving DecidableEq, Repr

/-- A parsed inbound JSON object: the fields the handlers read via
`data.get(...)`.  Absent keys are `none`; `symbols` defaults to `[]`. -/
structure MessageData where
  token : Option String
  symbols : List String
  symbol : Option String
  side : Option String
  quantity : Option ℚ
  orderType : Option String
  price : Option ℚ
deriving DecidableEq, Repr

/-- One inbound frame: either text that fails `json.loads`, or a parsed
object with its optional `type` field. -/
inductive InboundMessage where
  | invalidJson
  | parsed (mtype : Option String) (data : MessageData)
deriving DecidableEq, Repr

/-- The replies the consumer sends back on its own transport. -/
inductive OutMsg where
  | errorReply (message : String)
  | authSuccess (userId : ℕ)
  | subscribedReply (symbols : List String) (count : ℕ)
  | unsubscribedReply (symbols : List String)
  | orderPlaced (status : OrderStatus)
  | pong
deriving DecidableEq, Repr

/-- What one call to `receive` produces: the new session state, the list of
replies sent (in order), and whether the handler closed the connection
(`receive` never does — every failure path replies and keeps the socket
open). -/
structure ReceiveResult where
  state : ConsumerState
  replies : List OutMsg
  closedConnection : Bool
deriving DecidableEq, Repr

/-- The subscription loop of `handle_subscribe`: for each requested symbol
not already in the in-memory set, add its upper-cased form to the set and
to the active rows for `u`, and record it in the reply list. -/
def subscribeLoop (u : ℕ) (current : List String)
    (rows : List (ℕ × String)) :
    List String → List String × List (ℕ × String) × List String
  | [] => (current, rows, [])
  | s :: rest =>
      if s ∈ current then
        subscribeLoop u current rows rest
      else
        let current' :=
          if upper s ∈ current then current else current ++ [upper s]
        let rows' :=
          if (u, upper s) ∈ rows then rows else rows ++ [(u, upper s)]
        let res := subscribeLoop u current' rows' rest
        (res.1, res.2.1, s :: res.2.2)

/-- The unsubscription loop of `handle_unsubscribe`: for each requested
symbol present in the in-memory set, deactivate the matching active row if
one exists (only then is the set entry discarded — the `DoesNotExist`
branch skips the discard), and record the symbol in the reply list. -/
def unsubscribeLoop (u : ℕ) (current : List String)
    (rows : List (ℕ × String)) :
    List String → List String × List (ℕ × String) × List String
  | [] => (current, rows, [])
  | s :: rest =>
      if s ∈ current then
        let hit : Bool := (u, upper s) ∈ rows
        let current' := if hit then current.erase (upper s) else current
        let rows' := if hit then rows.erase (u, upper s) else rows
        let res := unsubscribeLoop u current' rows' rest
        (res.1, res.2.1, s :: res.2.2)
      else
        unsubscribeLoop u current rows rest

/-- `OrderService._validate_order_data` as a predicate: required truthy
fields, a valid side, a positive quantity, a price when the type is
limit/stop-limit, and a positive price whenever one is given.  Python
truthiness makes `""`, `None`, and `0` all count as missing. -/
def validOrderData (symbol side : Option String) (quantity : Option ℚ)
    (orderType : Option String) (price : Option ℚ) : Bool :=
  (match symbol with | none => false | some s => s ≠ "") &&
  (match side with | none => false | some s => s ≠ "") &&
  (match quantity with | none => false | some q => q ≠ 0) &&
  (match side with
   | some s => lower s = "buy" ∨ lower s = "sell"
   | none => false) &&
  (match quantity with | some q => decide (0 < q) | none => false) &&
  (let t := lower (orderType.getD "market")
   if t = "limit" ∨ t = "stop_limit" then
     match price with | none => false | some p => p ≠ 0
   else true) &&
  (match price with
   | some p => p = 0 ∨ decide (0 < p)
   | none => true)

/-- `OrderService.place_order` followed by `_submit_to_exchange`: validate,
create the order in status `pending`, then `submit()` it.  Returns `none`
when validation raises (the consumer's `place_order` wrapper catches and
returns `None`). -/
def placeOrder (data : MessageData) (now : ℕ) : Option Order :=
  if validOrderData data.symbol data.side data.quantity data.orderType
      data.price then
    match data.side, data.quantity with
    | some s, some q =>
        let side :=
          if lower s = "buy" then OrderSide.buy else OrderSide.sell
        let t := lower (data.orderType.getD "market")
        let orderType :=
          if t = "limit" then OrderType.limit
          else if t = "stop" then OrderType.stop
          else if t = "stop_limit" then OrderType.stopLimit
          else OrderType.market
        let o : Order :=
          { side := side, orderType := orderType, quantity := q
            price := data.price.bind (fun p => if p = 0 then none else some p)
            filledQuantity := 0, averageFillPrice := none
            status := OrderStatus.pending
            submittedAt := none, filledAt := none, cancelledAt := none }
        some (o.submit now)
    | _, _ => none
  else none

/-- `MarketDataConsumer.handle_auth`: missing/empty token and invalid token
each yield an error reply; on success the session binds the user and loads
its existing active subscriptions from the rows. -/
def handleAuth (authFn : String → Option ℕ) (st : ConsumerState)
    (data : MessageData) : ReceiveResult :=
  match data.token with
  | none => ⟨st, [OutMsg.errorReply "Token required for authentication"], false⟩
  | some t =>
      if t = "" then
        ⟨st, [OutMsg.errorReply "Token required for authentication"], false⟩
      else
        match authFn t with
        | none => ⟨st, [OutMsg.errorReply "Invalid token"], false⟩
        | some uid =>
            let loaded :=
              (st.activeSubscriptionRows.filter
                (fun r => r.1 == uid)).map (·.2)
            ⟨{ st with user := some uid, subscribedSymbols := loaded },
              [OutMsg.authSuccess uid], false⟩

/-- `MarketDataConsumer.handle_subscribe`: authentication guard, empty-list
guard, then the cap check `len(subscribed_symbols) + len(symbols) >
max_subscriptions` (counting every requested symbol, already-subscribed or
duplicated ones included), then the idempotent add loop.  A reply is sent
only when at least one symbol was newly added. -/
def handleSubscribe (maxSubscriptions : ℕ) (st : ConsumerState)
    (data : MessageData) : ReceiveResult :=
  match st.user with
  | none => ⟨st, [OutMsg.errorReply "Authentication required"], false⟩
  | some u =>
      if data.symbols = [] then
        ⟨st, [OutMsg.errorReply "No symbols provided"], false⟩
      else if maxSubscriptions <
          st.subscribedSymbols.length + data.symbols.length then
        ⟨st, [OutMsg.errorReply ("Subscription limit exceeded (" ++
          toString maxSubscriptions ++ ")")], false⟩
      else
        let res :=
          subscribeLoop u st.subscribedSymbols st.activeSubscriptionRows
            data.symbols
        let st' := { st with subscribedSymbols := res.1
                             activeSubscriptionRows := res.2.1 }
        if res.2.2 = [] then ⟨st', [], false⟩
        else ⟨st', [OutMsg.subscribedReply res.2.2 res.2.2.length], false⟩

/-- `MarketDataConsumer.handle_unsubscribe`: authentication guard,
empty-list guard, idempotent removal loop; a reply only when something was
removed from the in-memory set. -/
def handleUnsubscribe (st : ConsumerState) (data : MessageData) :
    ReceiveResult :=
  match st.user with
  | none => ⟨st, [OutMsg.errorReply "Authentication required"], false⟩
  | some u =>
      if data.symbols = [] then
        ⟨st, [OutMsg.errorReply "No symbols provided"], false⟩
      else
        let res :=
          unsubscribeLoop u st.subscribedSymbols st.activeSubscriptionRows
            data.symbols
        let st' := { st with subscribedSymbols := res.1
                             activeSubscriptionRows := res.2.1 }
        if res.2.2 = [] then ⟨st', [], false⟩
        else ⟨st', [OutMsg.unsubscribedReply res.2.2], false⟩

/-- `MarketDataConsumer.handle_place_order`: authentication guard, a
truthiness check on symbol/side/quantity, then `place_order`; a `None`
result (validation failure) sends no reply at all. -/
def handlePlaceOrder (st : ConsumerState) (data : MessageData) (now : ℕ) :
    ReceiveResult :=
  match st.user with
  | none => ⟨st, [OutMsg.errorReply "Authentication required"], false⟩
  | some _ =>
      let symbolTruthy :=
        match data.symbol with | none => false | some s => s ≠ ""
      let sideTruthy :=
        match data.side with | none => false | some s => s ≠ ""
      let quantityTruthy :=
        match data.quantity with | none => false | some q => q ≠ 0
      if ¬ (symbolTruthy && sideTruthy && quantityTruthy) then
        ⟨st, [OutMsg.errorReply "Missing required order fields"], false⟩
      else
        match placeOrder data now with
        | none => ⟨st, [], false⟩
        | some o =>
            ⟨{ st with placedOrders := st.placedOrders ++ [o] },
              [OutMsg.orderPlaced o.status], false⟩

/-- `MarketDataConsumer.receive`: parse-failure reply, dispatch on the
`type` field over the five known handlers, unknown-type error reply.  No
branch closes the connection. -/
def receive (authFn : String → Option ℕ) (maxSubscriptions : ℕ)
    (st : ConsumerState) (msg : InboundMessage) (now : ℕ) : ReceiveResult :=
  match msg with
  | InboundMessage.invalidJson =>
      ⟨st, [OutMsg.errorReply "Invalid JSON format"], false⟩
  | InboundMessage.parsed mtype data =>
      if mtype = some "auth" then handleAuth authFn st data
      else if mtype = some "subscribe" then
        handleSubscribe maxSubscriptions st data
      else if mtype = some "unsubscribe" then handleUnsubscribe st data
      else if mtype = some "place_order" then handlePlaceOrder st data now
      else if mtype = some "ping" then ⟨st, [OutMsg.pong], false⟩
      else
        ⟨st, [OutMsg.errorReply ("Unknown message type: " ++
          (match mtype with | none => "None" | some t => t))], false⟩

/-! ## Fan-out dispatcher
(src/be/exchange/services/redis_pubsub_service.py) -/

/-- One `WebSocketConnection` row as the dispatcher sees it. -/
structure ConnectionRow where
  channel : ℕ
  userId : ℕ
  status : String
deriving DecidableEq, Repr

/-- One consumer instance on the receiving end of the channel layer: its
channel name and its in-memory `subscribed_symbols`. -/
structure SessionView where
  channel : ℕ
  subscribedSymbols : List String
deriving DecidableEq, Repr

/-- `RedisPubSubService._handle_price_update`: the channels the dispatcher
sends a `send_price_update` event to — for every user with an active
`SymbolSubscription` row for `symbol.upper()`, every one of that user's
connections whose status is `'authenticated'`. -/
def dispatchPriceUpdate (rows : List (ℕ × String))
    (conns : List ConnectionRow) (symbol : String) : List ℕ :=
  ((rows.filter (fun r => r.2 == upper symbol)).map (·.1)).flatMap
    (fun u =>
      (conns.filter
        (fun c => c.userId == u && c.status == "authenticated")).map
        (·.channel))

/-- Whether one session's client actually receives a `price_update` for
`symbol`: the dispatcher must have targeted its channel, and the
consumer-side guard of `MarketDataConsumer.send_price_update`
(`if symbol in self.subscribed_symbols`) must pass. -/
def sessionReceivesPriceUpdate (rows : List (ℕ × String))
    (conns : List ConnectionRow) (sess : SessionView) (symbol : String) :
    Bool :=
  decide (sess.channel ∈ dispatchPriceUpdate rows conns symbol) &&
    decide (symbol ∈ sess.subscribedSymbols)

/-! ## Fill sequences -/

/-- Run a sequence of `Order.fill` calls (`(quantity, price, time)`
triples), stopping at the first failure. -/
def applyFills (o : Order) : List (ℚ × ℚ × ℕ) → Except Order.FillError Order
  | [] => Except.ok o
  | f :: rest =>
      match o.fill f.1 f.2.1 f.2.2 with
      | Except.ok o' => applyFills o' rest
      | Except.error e => Except.error e

/-- Total quantity of a fill sequence. -/
def totalQty (fills : List (ℚ × ℚ × ℕ)) : ℚ :=
  (fills.map (fun f => f.1)).sum

/-- Total traded value (Σ qtyᵢ·priceᵢ) of a fill sequence. -/
def totalValue (fills : List (ℚ × ℚ × ℕ)) : ℚ :=
  (fills.map (fun f => f.1 * f.2.1)).sum

/-! ## Helper lemmas about `Order.fill` -/

theorem fill_ok_spec {o : Order} {q p : ℚ} {t : ℕ} {o₁ : Order}
    (h : o.fill q p t = Except.ok o₁) :
    o₁.filledQuantity = o.filledQuantity + q ∧
    o₁.filledQuantity * (o₁.averageFillPrice.getD 0) =
      o.filledQuantity * (o.averageFillPrice.getD 0) + q * p ∧
    o₁.averageFillPrice.isSome := by
  simp only [Order.fill] at h
  split at h
  · cases h
  · split at h
    · cases h
    · split at h
      · cases h
      · rename_i hguard1 hguard2 hnf
        injection h with h
        split at h
        · subst h
          refine ⟨rfl, ?_, rfl⟩
          simp only [Option.getD_some]
          rw [mul_comm, div_mul_cancel₀ _ hnf]
        · subst h
          refine ⟨rfl, ?_, rfl⟩
          simp only [Option.getD_some]
          rw [mul_comm, div_mul_cancel₀ _ hnf]

theorem applyFills_spec {fills : List (ℚ × ℚ × ℕ)} :
    ∀ {o o' : Order}, applyFills o fills = Except.ok o' →
    o'.filledQuantity = o.filledQuantity + totalQty fills ∧
    o'.filledQuantity * (o'.averageFillPrice.getD 0) =
      o.filledQuantity * (o.averageFillPrice.getD 0) + totalValue fills ∧
    (fills ≠ [] → o'.averageFillPrice.isSome) := by
  induction fills with
  | nil =>
      intro o o' h
      simp only [applyFills] at h
      injection h with h
      subst h
      simp [totalQty, totalValue]
  | cons f rest ih =>
      intro o o' h
      simp only [applyFills] at h
      cases hf : o.fill f.1 f.2.1 f.2.2 with
      | error e => rw [hf] at h; cases h
      | ok o₁ =>
          rw [hf] at h
          obtain ⟨hq1, hv1, hs1⟩ := fill_ok_spec hf
          obtain ⟨hq2, hv2, hs2⟩ := ih h
          refine ⟨?_, ?_, fun _ => ?_⟩
          · rw [hq2, hq1]
            simp [totalQty]
            ring
          · rw [hv2, hv1]
            simp [totalValue]
            ring
          · cases hrest : rest with
            | nil =>
                simp only [hrest, applyFills] at h
                injection h with h
                subst h
                exact hs1
            | cons g tail =>
                exact hs2 (by simp [hrest])

/-! ## Concrete orders used by the witnesses and counterexamples -/

/-- A freshly submitted buy market order for 100 units. -/
def c1Order : Order :=
  { side := OrderSide.buy, orderType := OrderType.market, quantity := 100
    price := none, filledQuantity := 0, averageFillPrice := none
    status := OrderStatus.submitted, submittedAt := some 0, filledAt := none
    cancelledAt := none }

/-- Two fills of 50 units at 150 and 151. -/
def c1Fills : List (ℚ × ℚ × ℕ) := [(50, 150, 1), (50, 151, 2)]

/-- The order `c1Order` ends in after `c1Fills`. -/
def c1Final : Order :=
  { c1Order with filledQuantity := 100, averageFillPrice := some (301 / 2)
                 status := OrderStatus.filled, filledAt := some 2 }

/-- A fully filled (terminal) order. -/
def terminalFilledOrder : Order :=
  { side := OrderSide.buy, orderType := OrderType.market, quantity := 100
    price := none, filledQuantity := 100, averageFillPrice := some 150
    status := OrderStatus.filled, submittedAt := some 0, filledAt := some 1
    cancelledAt := none }

/-- A pending (never submitted) limit order. -/
def pendingOrder : Order :=
  { side := OrderSide.buy, orderType := OrderType.limit, quantity := 100
    price := some 10, filledQuantity := 0, averageFillPrice := none
    status := OrderStatus.pending, submittedAt := none, filledAt := none
    cancelledAt := none }

/-- An expired (terminal) order. -/
def expiredOrder : Order :=
  { side := OrderSide.sell, orderType := OrderType.limit, quantity := 50
    price := some 20, filledQuantity := 0, averageFillPrice := none
    status := OrderStatus.expired, submittedAt := some 0, filledAt := none
    cancelledAt := none }

/-- A submitted order with 80 of 100 units already filled. -/
def submittedOrder80 : Order :=
  { side := OrderSide.buy, orderType := OrderType.limit, quantity := 100
    price := some 150, filledQuantity := 80, averageFillPrice := some 150
    status := OrderStatus.submitted, submittedAt := some 0, filledAt := none
    cancelledAt := none }

/-- An order still in the partially-filled status whose remaining quantity
is zero. -/
def partialFullOrder : Order :=
  { side := OrderSide.buy, orderType := OrderType.limit, quantity := 100
    price := some 150, filledQuantity := 100, averageFillPrice := some 150
    status := OrderStatus.partiallyFilled, submittedAt := some 0
    filledAt := none, cancelledAt := none }

/-! ## C1: average fill price is the quantity-weighted mean -/

/-- C1: for every order starting with `filled_quantity = 0` and every
sequence of successful `fill(qtyᵢ, priceᵢ)` calls with each `qtyᵢ > 0` and
`Σ qtyᵢ ≤ quantity`, after the sequence `average_fill_price` equals the
quantity-weighted mean `(Σ qtyᵢ·priceᵢ) / (Σ qtyᵢ)`, maintained step by
step by the update in `Order.fill`. -/
theorem C1_average_fill_price_is_weighted_mean
    (o : Order) (fills : List (ℚ × ℚ × ℕ)) (o' : Order)
    (h0 : o.filledQuantity = 0)
    (hpos : ∀ f ∈ fills, 0 < f.1)
    (_hsum : totalQty fills ≤ o.quantity)
    (hne : fills ≠ [])
    (hok : applyFills o fills = Except.ok o') :
    o'.averageFillPrice = some (totalValue fills / totalQty fills) := by
  obtain ⟨hq, hv, hs⟩ := applyFills_spec hok
  have hqpos : 0 < totalQty fills := by
    refine List.sum_pos _ ?_ ?_
    · intro x hx
      obtain ⟨f, hf, rfl⟩ := List.mem_map.mp hx
      exact hpos f hf
    · simpa using hne
  obtain ⟨a, ha⟩ := Option.isSome_iff_exists.mp (hs hne)
  rw [h0, zero_mul, zero_add] at hv
  rw [h0, zero_add] at hq
  rw [ha, Option.getD_some, hq] at hv
  rw [ha]
  congr 1
  rw [eq_div_iff (ne_of_gt hqpos), mul_comm]
  exact hv

/-- Witness for C1: after fills of 50 @ 150 and 50 @ 151 the average fill
price is 150.5. -/
theorem C1_witness : c1Final.averageFillPrice = some ((301 : ℚ) / 2) := by
  have h := C1_average_fill_price_is_weighted_mean c1Order c1Fills c1Final
    (by decide) (by decide) (by norm_num [totalQty, c1Fills, c1Order])
    (by decide)
    (by
      simp only [applyFills, c1Order, c1Fills, c1Final, Order.fill,
        Order.isActive, Order.remainingQuantity, Order.isFullyFilled]
      norm_num)
  rw [h]
  norm_num [totalValue, totalQty, c1Fills]

/-! ## C2: behaviour of mutations on terminal orders -/

/-- Counterexample to C2 as stated: on a terminal (`filled`) order,
`submit` succeeds and changes the status back to `submitted`, and `reject`
succeeds and changes the status to `rejected` — neither fails. -/
theorem C2_counterexample :
    terminalFilledOrder.status = OrderStatus.filled ∧
    (terminalFilledOrder.submit 2).status = OrderStatus.submitted ∧
    terminalFilledOrder.submit 2 ≠ terminalFilledOrder ∧
    (terminalFilledOrder.reject).status = OrderStatus.rejected ∧
    terminalFilledOrder.reject ≠ terminalFilledOrder := by
  decide

/-- C2 (amended): on a terminal order (`filled`/`cancelled`/`rejected`/
`expired`), `fill` and `cancel` fail with `InvalidState` and leave the
order unchanged, but `submit` and `reject` are unguarded: `submit` always
sets the status to `submitted` and `reject` always sets it to
`rejected`, mutating even a terminal order. -/
theorem C2_terminal_mutation (o : Order) (q p : ℚ) (t now : ℕ)
    (h : o.isTerminal) :
    o.fill q p t = Except.error Order.FillError.invalidState ∧
    o.cancel now = Except.error Order.FillError.invalidState ∧
    (o.submit now).status = OrderStatus.submitted ∧
    (o.reject).status = OrderStatus.rejected := by
  have hna : ¬ o.isActive := by
    simp only [Order.isTerminal, decide_eq_true_eq] at h
    simp only [Order.isActive, decide_eq_true_eq]
    rcases h with h | h | h | h <;> simp [h]
  exact ⟨by simp [Order.fill, hna], by simp [Order.cancel, hna], rfl, rfl⟩

/-- Witness for the amended C2 at a concrete filled order. -/
theorem C2_witness :
    terminalFilledOrder.fill 5 10 3 =
      Except.error Order.FillError.invalidState ∧
    terminalFilledOrder.cancel 3 =
      Except.error Order.FillError.invalidState ∧
    (terminalFilledOrder.submit 3).status = OrderStatus.submitted ∧
    (terminalFilledOrder.reject).status = OrderStatus.rejected :=
  C2_terminal_mutation terminalFilledOrder 5 10 3 3 (by decide)

/-! ## C3: the guards of `Order.fill` -/

/-- Counterexample to C3 as stated: `fill` succeeds on a `pending` order —
`is_active` includes `'pending'`, so the `InvalidState` guard does not
fire for statuses outside `{submitted, partial}` alone. -/
theorem C3_counterexample :
    pendingOrder.status = OrderStatus.pending ∧
    (pendingOrder.fill 50 10 1).isOk = true := by
  refine ⟨rfl, ?_⟩
  simp only [pendingOrder, Order.fill, Order.isActive,
    Order.remainingQuantity, Order.isFullyFilled]
  norm_num
  rfl

/-- C3 (amended): `fill(qty, price)` fails with `InvalidState` whenever the
status is not one of `pending`/`submitted`/`partial` (it succeeds on a
pending order); for an active order it fails with `OverFill` whenever
`qty` exceeds `quantity - filled_quantity`, and in particular any fill
with `qty > 0` on an order with `remaining_quantity = 0` fails with
`OverFill`; every failure raises before any field is written. -/
theorem C3_fill_guards (o : Order) (q p : ℚ) (t : ℕ) :
    (¬ o.isActive → o.fill q p t = Except.error Order.FillError.invalidState) ∧
    (o.isActive → o.remainingQuantity < q →
      o.fill q p t = Except.error Order.FillError.overFill) ∧
    (o.isActive → o.remainingQuantity = 0 → 0 < q →
      o.fill q p t = Except.error Order.FillError.overFill) := by
  refine ⟨fun h => by simp [Order.fill, h], fun ha h => ?_, fun ha h hq => ?_⟩
  · simp [Order.fill, ha, h]
  · have h' : o.remainingQuantity < q := by rw [h]; exact hq
    simp [Order.fill, ha, h']

/-- Witness for the amended C3: an expired order fails with
`InvalidState`; a fill of 30 with 20 remaining fails with `OverFill`; a
fill of 5 with 0 remaining fails with `OverFill`. -/
theorem C3_witness :
    expiredOrder.fill 10 5 0 = Except.error Order.FillError.invalidState ∧
    submittedOrder80.fill 30 5 0 = Except.error Order.FillError.overFill ∧
    partialFullOrder.fill 5 5 0 = Except.error Order.FillError.overFill :=
  ⟨(C3_fill_guards expiredOrder 10 5 0).1 (by decide),
   (C3_fill_guards submittedOrder80 30 5 0).2.1 (by decide)
     (by norm_num [Order.remainingQuantity, submittedOrder80]),
   (C3_fill_guards partialFullOrder 5 5 0).2.2 (by decide)
     (by norm_num [Order.remainingQuantity, partialFullOrder])
     (by norm_num)⟩

/-! ## C10: `fill(0, price)` divides by zero on a never-filled order -/

/-- C10: for every order in an active status with `filled_quantity = 0`
and `quantity > 0`, `fill(0, price)` passes the inactive-order guard and
the over-fill guard and then fails computing `average_fill_price`, because
the updated filled quantity it divides by is still 0. -/
theorem C10_zero_fill_division_error (o : Order) (p : ℚ) (t : ℕ)
    (ha : o.isActive) (h0 : o.filledQuantity = 0) (hq : 0 < o.quantity) :
    o.fill 0 p t = Except.error Order.FillError.divisionUndefined := by
  have h1 : ¬ (o.remainingQuantity < 0) := by
    simp only [Order.remainingQuantity, h0, sub_zero]
    exact not_lt.mpr (le_of_lt hq)
  simp [Order.fill, ha, h1, h0]

/-- Witness for C10 at a fresh submitted order for 100 units. -/
theorem C10_witness :
    c1Order.fill 0 42 7 = Except.error Order.FillError.divisionUndefined :=
  C10_zero_fill_division_error c1Order 42 7 (by decide) (by decide)
    (by decide)

/-! ## C4: price-process invariants -/

theorem generatePriceUpdate_preserves (s : PriceState) (d : TickDraw)
    (h : 0 < s.currentPrice) :
    0 < (generatePriceUpdate s d).1.currentPrice ∧
    (generatePriceUpdate s d).1.dailyLow ≤
      (generatePriceUpdate s d).1.currentPrice ∧
    (generatePriceUpdate s d).1.currentPrice ≤
      (generatePriceUpdate s d).1.dailyHigh := by
  simp only [generatePriceUpdate]
  refine ⟨?_, min_le_right _ _, le_max_right _ _⟩
  have h1 : 0 < s.currentPrice * (1 / 100) := by positivity
  exact lt_of_lt_of_le h1 (le_max_right _ _)

theorem tickSeq_preserves :
    ∀ (draws : List TickDraw) (s : PriceState),
    (0 < s.currentPrice ∧ s.dailyLow ≤ s.currentPrice ∧
      s.currentPrice ≤ s.dailyHigh) →
    0 < (tickSeq s draws).currentPrice ∧
    (tickSeq s draws).dailyLow ≤ (tickSeq s draws).currentPrice ∧
    (tickSeq s draws).currentPrice ≤ (tickSeq s draws).dailyHigh := by
  intro draws
  induction draws with
  | nil => intro s hs; exact hs
  | cons d rest ih =>
      intro s hs
      exact ih ((generatePriceUpdate s d).1)
        (generatePriceUpdate_preserves s d hs.1)

/-- C4: starting from the initial per-symbol price state with a positive
base price, after every sequence of ticks the state satisfies
`daily_low ≤ current_price ≤ daily_high` and `current_price > 0`, and the
next tick's price is never below 1% of the prior price (the clamp
`max(candidate, prior · 0.01)`). -/
theorem C4_price_invariants (base : ℚ) (volume trend : ℤ)
    (draws : List TickDraw) (d : TickDraw) (hbase : 0 < base) :
    (0 < (tickSeq (initPriceState base volume trend) draws).currentPrice ∧
     (tickSeq (initPriceState base volume trend) draws).dailyLow ≤
       (tickSeq (initPriceState base volume trend) draws).currentPrice ∧
     (tickSeq (initPriceState base volume trend) draws).currentPrice ≤
       (tickSeq (initPriceState base volume trend) draws).dailyHigh) ∧
    (tickSeq (initPriceState base volume trend) draws).currentPrice *
        (1 / 100) ≤
      (generatePriceUpdate (tickSeq (initPriceState base volume trend) draws)
        d).1.currentPrice := by
  have hinit : 0 < (initPriceState base volume trend).currentPrice ∧
      (initPriceState base volume trend).dailyLow ≤
        (initPriceState base volume trend).currentPrice ∧
      (initPriceState base volume trend).currentPrice ≤
        (initPriceState base volume trend).dailyHigh := by
    refine ⟨hbase, ?_, ?_⟩ <;> simp only [initPriceState] <;> nlinarith
  refine ⟨tickSeq_preserves draws _ hinit, ?_⟩
  simp only [generatePriceUpdate]
  exact le_max_right _ _

/-- Witness for C4: a tick sequence with a crash draw of −200 from base
price 100 keeps the price positive, within the daily low/high, and at or
above 1% of the prior price on the next tick. -/
theorem C4_witness :
    (0 < (tickSeq (initPriceState 100 500000 1)
        [⟨-200, 1 / 100, 0, none⟩]).currentPrice ∧
     (tickSeq (initPriceState 100 500000 1)
        [⟨-200, 1 / 100, 0, none⟩]).dailyLow ≤
       (tickSeq (initPriceState 100 500000 1)
        [⟨-200, 1 / 100, 0, none⟩]).currentPrice ∧
     (tickSeq (initPriceState 100 500000 1)
        [⟨-200, 1 / 100, 0, none⟩]).currentPrice ≤
       (tickSeq (initPriceState 100 500000 1)
        [⟨-200, 1 / 100, 0, none⟩]).dailyHigh) ∧
    (tickSeq (initPriceState 100 500000 1)
        [⟨-200, 1 / 100, 0, none⟩]).currentPrice * (1 / 100) ≤
      (generatePriceUpdate (tickSeq (initPriceState 100 500000 1)
        [⟨-200, 1 / 100, 0, none⟩]) ⟨-5, 1 / 200, 1000, some 0⟩).1.currentPrice :=
  C4_price_invariants 100 500000 1 [⟨-200, 1 / 100, 0, none⟩]
    ⟨-5, 1 / 200, 1000, some 0⟩ (by norm_num)

/-! ## C5 and C6: matching-loop executions -/

/-- Filling exactly the remaining quantity of an active order succeeds and
fully fills it. -/
theorem fill_remaining_spec (o : Order) (px : ℚ) (now : ℕ)
    (ha : o.isActive) (h0 : 0 ≤ o.filledQuantity)
    (hlt : o.filledQuantity < o.quantity) :
    o.fill o.remainingQuantity px now = Except.ok { o with
      filledQuantity := o.quantity,
      averageFillPrice := some ((o.filledQuantity *
        (o.averageFillPrice.getD 0) + o.remainingQuantity * px) /
          o.quantity),
      status := OrderStatus.filled, filledAt := some now } := by
  have hsum : o.filledQuantity + o.remainingQuantity = o.quantity := by
    simp [Order.remainingQuantity]
  have hq0 : (0 : ℚ) < o.quantity := lt_of_le_of_lt h0 hlt
  simp only [Order.fill, ha, not_true, if_false, lt_irrefl, if_neg,
    not_false_iff, hsum, Order.isFullyFilled]
  rw [if_neg hq0.ne']
  simp [Order.isFullyFilled, hsum]

/-- The execution price `simulate_market_order_execution` picks: the ask
for a buy, the bid for a sell. -/
def bestPrice (side : OrderSide) (m : MarketDataSnapshot) : ℚ :=
  match side with
  | OrderSide.buy => m.ask
  | OrderSide.sell => m.bid

/-- A market order in `partial` status with 50 of 100 units filled. -/
def c5PartialOrder : Order :=
  { side := OrderSide.buy, orderType := OrderType.market, quantity := 100
    price := none, filledQuantity := 50, averageFillPrice := some 150
    status := OrderStatus.partiallyFilled, submittedAt := some 0
    filledAt := none, cancelledAt := none }

/-- A market snapshot with bid 150 and ask 150.01. -/
def c5Snapshot : MarketDataSnapshot := { bid := 150, ask := 15001 / 100 }

/-- Counterexample to C5 as stated: a partially filled market order with
remaining quantity 50 produces no execution at all —
`simulate_market_order_execution` requests `order.quantity` (100), the
fill fails with `OverFill`, and the service returns `None` — instead of
filling the remaining 50 as the claim requires. -/
theorem C5_counterexample :
    c5PartialOrder.status = OrderStatus.partiallyFilled ∧
    c5PartialOrder.remainingQuantity = 50 ∧
    simulateMarketOrderExecution c5PartialOrder (some c5Snapshot) 1 =
      none := by
  refine ⟨rfl, by norm_num [Order.remainingQuantity, c5PartialOrder], ?_⟩
  simp only [simulateMarketOrderExecution, executeOrder, Order.fill,
    Order.isActive, Order.remainingQuantity, Order.isFullyFilled,
    c5PartialOrder, c5Snapshot]
  norm_num

/-- C5 (amended): for an active market order with `filled_quantity = 0`
(the only case the matching loop can produce, since a market execution
always fills in full) and a market snapshot available, the execution fills
the full requested quantity `order.quantity` — equal to the remaining
quantity — at the ask for a buy and the bid for a sell, with commission
`min(9.99, quantity · price · 0.001)`, producing exactly one execution
record and one successful `fill()`; afterwards the order is `filled`.  A
partially filled market order instead fails with `OverFill` and produces
nothing (see the counterexample). -/
theorem C5_market_execution (o : Order) (m : MarketDataSnapshot) (now : ℕ)
    (hst : o.status = OrderStatus.submitted ∨
      o.status = OrderStatus.partiallyFilled)
    (hf : o.filledQuantity = 0) (havg : o.averageFillPrice = none)
    (hq : 0 < o.quantity) :
    simulateMarketOrderExecution o (some m) now =
      some ({ quantity := o.quantity, price := bestPrice o.side m,
              commission := min (999 / 100)
                (o.quantity * bestPrice o.side m * (1 / 1000)) },
            { o with filledQuantity := o.quantity,
                     averageFillPrice := some (bestPrice o.side m),
                     status := OrderStatus.filled, filledAt := some now }) ∧
    o.remainingQuantity = o.quantity := by
  have ha : o.isActive := by rcases hst with h | h <;> simp [Order.isActive, h]
  have hrem : o.remainingQuantity = o.quantity := by
    simp [Order.remainingQuantity, hf]
  have hfill := fill_remaining_spec o (bestPrice o.side m) now ha
    (le_of_eq hf.symm) (by rw [hf]; exact hq)
  rw [hrem, hf, havg] at hfill
  simp only [Option.getD_none, zero_mul, zero_add] at hfill
  rw [mul_div_cancel_left₀ _ hq.ne'] at hfill
  refine ⟨?_, hrem⟩
  cases hs : o.side with
  | buy =>
      rw [hs] at hfill
      simp only [bestPrice] at hfill
      simp only [simulateMarketOrderExecution, executeOrder, hs, bestPrice]
      rw [hfill]
  | sell =>
      rw [hs] at hfill
      simp only [bestPrice] at hfill
      simp only [simulateMarketOrderExecution, executeOrder, hs, bestPrice]
      rw [hfill]

/-- Witness for the amended C5: the fresh submitted market buy order for
100 units fills in full at the ask. -/
theorem C5_witness :
    simulateMarketOrderExecution c1Order (some c5Snapshot) 3 =
      some ({ quantity := c1Order.quantity,
              price := bestPrice c1Order.side c5Snapshot,
              commission := min (999 / 100) (c1Order.quantity *
                bestPrice c1Order.side c5Snapshot * (1 / 1000)) },
            { c1Order with filledQuantity := c1Order.quantity,
                           averageFillPrice :=
                             some (bestPrice c1Order.side c5Snapshot),
                           status := OrderStatus.filled,
                           filledAt := some 3 }) ∧
    c1Order.remainingQuantity = c1Order.quantity :=
  C5_market_execution c1Order c5Snapshot 3 (Or.inl rfl) rfl rfl (by decide)

/-- C6: for an active limit order checked by the matching loop, a buy
executes exactly when the current price is ≤ the limit price and a sell
exactly when it is ≥; a triggered execution is for the full remaining
quantity at the order's limit price (not the market price) with commission
`min(9.99, remaining · limit · 0.001)` and fully fills the order; an
untriggered check returns nothing and leaves the order unchanged. -/
theorem C6_limit_trigger (o : Order) (lp cp : ℚ) (now : ℕ)
    (hp : o.price = some lp)
    (hst : o.status = OrderStatus.submitted ∨
      o.status = OrderStatus.partiallyFilled)
    (h0 : 0 ≤ o.filledQuantity) (hlt : o.filledQuantity < o.quantity) :
    ((checkLimitOrder o cp now).isSome ↔
      (o.side = OrderSide.buy ∧ cp ≤ lp) ∨
      (o.side = OrderSide.sell ∧ lp ≤ cp)) ∧
    (∀ ex o', checkLimitOrder o cp now = some (ex, o') →
      ex.quantity = o.remainingQuantity ∧ ex.price = lp ∧
      ex.commission = min (999 / 100) (o.remainingQuantity * lp * (1 / 1000)) ∧
      o'.status = OrderStatus.filled) ∧
    (¬ ((o.side = OrderSide.buy ∧ cp ≤ lp) ∨
        (o.side = OrderSide.sell ∧ lp ≤ cp)) →
      checkLimitOrder o cp now = none) := by
  have ha : o.isActive := by rcases hst with h | h <;> simp [Order.isActive, h]
  have hfill := fill_remaining_spec o lp now ha h0 hlt
  cases hs : o.side with
  | buy =>
      by_cases hcp : cp ≤ lp
      · have hckl : checkLimitOrder o cp now =
            some ({ quantity := o.remainingQuantity, price := lp,
                    commission := min (999 / 100)
                      (o.remainingQuantity * lp * (1 / 1000)) },
                  { o with filledQuantity := o.quantity,
                           averageFillPrice := some ((o.filledQuantity *
                             (o.averageFillPrice.getD 0) +
                               o.remainingQuantity * lp) / o.quantity),
                           status := OrderStatus.filled,
                           filledAt := some now }) := by
          simp only [checkLimitOrder, hp, hs, executeOrder, hfill,
            decide_eq_true_eq, hcp, if_true]
        refine ⟨?_, ?_, ?_⟩
        · rw [hckl]; simp [hs, hcp]
        · intro ex o' h
          rw [hckl] at h
          injection h with h
          injection h with h1 h2
          subst h1
          subst h2
          exact ⟨rfl, rfl, rfl, rfl⟩
        · intro hcontra
          exact absurd (Or.inl ⟨rfl, hcp⟩) hcontra
      · have hckl : checkLimitOrder o cp now = none := by
          simp only [checkLimitOrder, hp, hs]
          simp [hcp]
        refine ⟨?_, ?_, fun _ => hckl⟩
        · rw [hckl]
          simp [hs, hcp]
        · intro ex o' h
          rw [hckl] at h
          cases h
  | sell =>
      by_cases hcp : lp ≤ cp
      · have hckl : checkLimitOrder o cp now =
            some ({ quantity := o.remainingQuantity, price := lp,
                    commission := min (999 / 100)
                      (o.remainingQuantity * lp * (1 / 1000)) },
                  { o with filledQuantity := o.quantity,
                           averageFillPrice := some ((o.filledQuantity *
                             (o.averageFillPrice.getD 0) +
                               o.remainingQuantity * lp) / o.quantity),
                           status := OrderStatus.filled,
                           filledAt := some now }) := by
          simp only [checkLimitOrder, hp, hs, executeOrder, hfill,
            decide_eq_true_eq, hcp, if_true]
        refine ⟨?_, ?_, ?_⟩
        · rw [hckl]; simp [hs, hcp]
        · intro ex o' h
          rw [hckl] at h
          injection h with h
          injection h with h1 h2
          subst h1
          subst h2
          exact ⟨rfl, rfl, rfl, rfl⟩
        · intro hcontra
          exact absurd (Or.inr ⟨rfl, hcp⟩) hcontra
      · have hckl : checkLimitOrder o cp now = none := by
          simp only [checkLimitOrder, hp, hs]
          simp [hcp]
        refine ⟨?_, ?_, fun _ => hckl⟩
        · rw [hckl]
          simp [hs, hcp]
        · intro ex o' h
          rw [hckl] at h
          cases h

/-- A submitted limit buy at 149 for 100 units. -/
def c6Order : Order :=
  { side := OrderSide.buy, orderType := OrderType.limit, quantity := 100
    price := some 149, filledQuantity := 0, averageFillPrice := none
    status := OrderStatus.submitted, submittedAt := some 0, filledAt := none
    cancelledAt := none }

/-- Witness for C6: a limit buy at 149 with the price at 148.5. -/
theorem C6_witness :
    ((checkLimitOrder c6Order (297 / 2) 5).isSome ↔
      (c6Order.side = OrderSide.buy ∧ (297 / 2 : ℚ) ≤ 149) ∨
      (c6Order.side = OrderSide.sell ∧ (149 : ℚ) ≤ 297 / 2)) ∧
    (∀ ex o', checkLimitOrder c6Order (297 / 2) 5 = some (ex, o') →
      ex.quantity = c6Order.remainingQuantity ∧ ex.price = 149 ∧
      ex.commission = min (999 / 100)
        (c6Order.remainingQuantity * 149 * (1 / 1000)) ∧
      o'.status = OrderStatus.filled) ∧
    (¬ ((c6Order.side = OrderSide.buy ∧ (297 / 2 : ℚ) ≤ 149) ∨
        (c6Order.side = OrderSide.sell ∧ (149 : ℚ) ≤ 297 / 2)) →
      checkLimitOrder c6Order (297 / 2) 5 = none) :=
  C6_limit_trigger c6Order 149 (297 / 2) 5 rfl (Or.inl rfl) (by decide)
    (by decide)

/-! ## C7: the subscription cap -/

/-- Membership in the set produced by the subscription loop: when the
stored and requested symbols are already upper-case (as the system keeps
them), the loop realises exactly the union. -/
theorem subscribeLoop_mem (u : ℕ) :
    ∀ (symbols current : List String) (rows : List (ℕ × String)),
    (∀ y ∈ current, upper y = y) → (∀ s ∈ symbols, upper s = s) →
    ∀ x, (x ∈ (subscribeLoop u current rows symbols).1 ↔
      x ∈ current ∨ x ∈ symbols) := by
  intro symbols
  induction symbols with
  | nil =>
      intro current rows hcur hsym x
      simp [subscribeLoop]
  | cons s rest ih =>
      intro current rows hcur hsym x
      have hs : upper s = s := hsym s (by simp)
      have hrest : ∀ t ∈ rest, upper t = t := fun t ht => hsym t (by simp [ht])
      by_cases hmem : s ∈ current
      · simp only [subscribeLoop, if_pos hmem]
        rw [ih current rows hcur hrest x]
        constructor
        · rintro (h | h)
          · exact Or.inl h
          · exact Or.inr (List.mem_cons_of_mem s h)
        · rintro (h | h)
          · exact Or.inl h
          · rcases List.mem_cons.mp h with h | h
            · exact Or.inl (by rw [h]; exact hmem)
            · exact Or.inr h
      · simp only [subscribeLoop, if_neg hmem, hs, hmem, if_false]
        have hcur' : ∀ y ∈ current ++ [s], upper y = y := by
          intro y hy
          rcases List.mem_append.mp hy with h | h
          · exact hcur y h
          · rw [List.mem_singleton.mp h]; exact hs
        rw [ih (current ++ [s])
          (if (u, s) ∈ rows then rows else rows ++ [(u, s)]) hcur' hrest x]
        simp [List.mem_append, List.mem_cons]
        tauto

/-- A `subscribe` frame routes to `handle_subscribe`. -/
theorem receive_subscribe_eq (authFn : String → Option ℕ)
    (maxSubscriptions : ℕ) (st : ConsumerState) (data : MessageData)
    (now : ℕ) :
    receive authFn maxSubscriptions st
      (InboundMessage.parsed (some "subscribe") data) now =
      handleSubscribe maxSubscriptions st data := by
  rfl

/-- A token validator that rejects everything (no auth happens in these
scenarios). -/
def c7AuthFn : String → Option ℕ := fun _ => none

/-- An authenticated session with no subscriptions yet. -/
def c7State : ConsumerState :=
  { user := some 1, subscribedSymbols := [], activeSubscriptionRows := []
    placedOrders := [] }

/-- A subscribe request listing the same symbol 51 times. -/
def c7Payload : MessageData :=
  { token := none, symbols := List.replicate 51 "AAPL", symbol := none
    side := none, quantity := none, orderType := none, price := none }

/-- Counterexample to C7 as stated: the cap check counts the raw length of
the requested list, not the size of the union.  A session with an empty
subscribed set asking for one symbol repeated 51 times is rejected with
the limit error at cap 50, although the union has size 1 ≤ 50, so
duplicated symbols do count toward the cap. -/
theorem C7_counterexample :
    ((c7State.subscribedSymbols ++ c7Payload.symbols).dedup.length ≤ 50) ∧
    receive c7AuthFn 50 c7State
        (InboundMessage.parsed (some "subscribe") c7Payload) 0 =
      ⟨c7State, [OutMsg.errorReply "Subscription limit exceeded (50)"],
        false⟩ := by
  constructor
  · decide
  · rfl

/-- C7 (amended): `subscribe(symbols)` fails with the limit-exceeded error
exactly when `len(subscribed_symbols) + len(symbols)` exceeds the cap —
counting every entry of the requested list, duplicates and
already-subscribed symbols included, rather than the union size; on that
failure the session state is unchanged; otherwise the symbols are added
idempotently (the resulting set is the union of the old set and the
request). -/
theorem C7_subscription_cap (authFn : String → Option ℕ)
    (maxSubscriptions : ℕ) (st : ConsumerState) (data : MessageData)
    (u : ℕ) (now : ℕ)
    (hu : st.user = some u) (hne : data.symbols ≠ [])
    (hcur : ∀ y ∈ st.subscribedSymbols, upper y = y)
    (hsym : ∀ s ∈ data.symbols, upper s = s) :
    (maxSubscriptions < st.subscribedSymbols.length + data.symbols.length →
      receive authFn maxSubscriptions st
          (InboundMessage.parsed (some "subscribe") data) now =
        ⟨st, [OutMsg.errorReply ("Subscription limit exceeded (" ++
          toString maxSubscriptions ++ ")")], false⟩) ∧
    (st.subscribedSymbols.length + data.symbols.length ≤ maxSubscriptions →
      ∀ x, x ∈ (receive authFn maxSubscriptions st
          (InboundMessage.parsed (some "subscribe") data)
            now).state.subscribedSymbols ↔
        x ∈ st.subscribedSymbols ∨ x ∈ data.symbols) := by
  rw [receive_subscribe_eq]
  constructor
  · intro hcap
    simp only [handleSubscribe, hu]
    rw [if_neg hne, if_pos hcap]
  · intro hcap x
    simp only [handleSubscribe, hu]
    rw [if_neg hne, if_neg (not_lt.mpr hcap)]
    have hmem := subscribeLoop_mem u data.symbols st.subscribedSymbols
      st.activeSubscriptionRows hcur hsym x
    by_cases hadd : (subscribeLoop u st.subscribedSymbols
        st.activeSubscriptionRows data.symbols).2.2 = []
    · rw [if_pos hadd]
      exact hmem
    · rw [if_neg hadd]
      exact hmem

/-- An authenticated session already subscribed to MSFT. -/
def c7WitState : ConsumerState :=
  { user := some 1, subscribedSymbols := ["MSFT"]
    activeSubscriptionRows := [(1, "MSFT")], placedOrders := [] }

/-- A subscribe request for AAPL and the already-held MSFT. -/
def c7WitData : MessageData :=
  { token := none, symbols := ["AAPL", "MSFT"], symbol := none
    side := none, quantity := none, orderType := none, price := none }

/-- Witness for the amended C7: subscribing to AAPL and MSFT under the cap
adds AAPL to the set. -/
theorem C7_witness :
    "AAPL" ∈ (receive c7AuthFn 50 c7WitState
        (InboundMessage.parsed (some "subscribe") c7WitData)
          0).state.subscribedSymbols ↔
      "AAPL" ∈ c7WitState.subscribedSymbols ∨
        "AAPL" ∈ c7WitData.symbols :=
  (C7_subscription_cap c7AuthFn 50 c7WitState c7WitData 1 0 rfl (by decide)
    (by decide) (by decide)).2 (by decide) "AAPL"

/-! ## C9: inbound protocol error handling -/

/-- C9: an unauthenticated `subscribe` or `place_order` yields the
"Authentication required" error reply and changes no session, subscription
or order state; a message whose type is outside the five known commands
yields an unknown-type error reply without closing the connection; a frame
that fails JSON parsing yields the parse-error reply instead of a close. -/
theorem C9_protocol_guards (authFn : String → Option ℕ)
    (maxSubscriptions : ℕ) (st : ConsumerState) (data : MessageData)
    (mtype : Option String) (now : ℕ) :
    (st.user = none →
      receive authFn maxSubscriptions st
          (InboundMessage.parsed (some "subscribe") data) now =
        ⟨st, [OutMsg.errorReply "Authentication required"], false⟩ ∧
      receive authFn maxSubscriptions st
          (InboundMessage.parsed (some "place_order") data) now =
        ⟨st, [OutMsg.errorReply "Authentication required"], false⟩) ∧
    (mtype ∉ ([some "auth", some "subscribe", some "unsubscribe",
        some "place_order", some "ping"] : List (Option String)) →
      receive authFn maxSubscriptions st
          (InboundMessage.parsed mtype data) now =
        ⟨st, [OutMsg.errorReply ("Unknown message type: " ++
          (match mtype with | none => "None" | some t => t))], false⟩) ∧
    receive authFn maxSubscriptions st InboundMessage.invalidJson now =
      ⟨st, [OutMsg.errorReply "Invalid JSON format"], false⟩ := by
  refine ⟨fun h => ⟨?_, ?_⟩, fun h => ?_, rfl⟩
  · show handleSubscribe maxSubscriptions st data = _
    simp only [handleSubscribe, h]
  · show handlePlaceOrder st data now = _
    simp only [handlePlaceOrder, h]
  · simp only [List.mem_cons, List.mem_singleton, not_or] at h
    obtain ⟨h1, h2, h3, h4, h5, -⟩ := h
    simp only [receive, if_neg h1, if_neg h2, if_neg h3, if_neg h4,
      if_neg h5]

/-- An unauthenticated session with empty state. -/
def c9UnauthState : ConsumerState :=
  { user := none, subscribedSymbols := [], activeSubscriptionRows := []
    placedOrders := [] }

/-- An empty parsed payload. -/
def c9Data : MessageData :=
  { token := none, symbols := [], symbol := none, side := none
    quantity := none, orderType := none, price := none }

/-- Witness for C9 on a concrete unauthenticated session, an unknown
command type, and a malformed frame. -/
theorem C9_witness :
    (receive c7AuthFn 50 c9UnauthState
        (InboundMessage.parsed (some "subscribe") c9Data) 0 =
      ⟨c9UnauthState, [OutMsg.errorReply "Authentication required"],
        false⟩) ∧
    (receive c7AuthFn 50 c9UnauthState
        (InboundMessage.parsed (some "bogus") c9Data) 0 =
      ⟨c9UnauthState, [OutMsg.errorReply "Unknown message type: bogus"],
        false⟩) ∧
    (receive c7AuthFn 50 c9UnauthState InboundMessage.invalidJson 0 =
      ⟨c9UnauthState, [OutMsg.errorReply "Invalid JSON format"], false⟩) :=
  ⟨(C9_protocol_guards c7AuthFn 50 c9UnauthState c9Data (some "bogus")
      0).1 rfl |>.1,
   (C9_protocol_guards c7AuthFn 50 c9UnauthState c9Data (some "bogus")
      0).2.1 (by decide),
   (C9_protocol_guards c7AuthFn 50 c9UnauthState c9Data (some "bogus")
      0).2.2⟩

/-! ## C8: fan-out isolation for price updates -/

/-- C8: a price update for a symbol is delivered to every authenticated
connection of a user holding an active subscription row for that symbol
whose consumer's in-memory set contains the symbol; and a session whose
in-memory subscribed set does not contain a symbol never receives a price
update for it, whatever the dispatcher does. -/
theorem C8_fanout (rows : List (ℕ × String)) (conns : List ConnectionRow)
    (sess : SessionView) (symbol : String) :
    (symbol ∉ sess.subscribedSymbols →
      sessionReceivesPriceUpdate rows conns sess symbol = false) ∧
    (∀ u : ℕ,
      ({ channel := sess.channel, userId := u,
         status := "authenticated" } : ConnectionRow) ∈ conns →
      (u, upper symbol) ∈ rows → symbol ∈ sess.subscribedSymbols →
      sessionReceivesPriceUpdate rows conns sess symbol = true) := by
  constructor
  · intro h
    simp [sessionReceivesPriceUpdate, h]
  · intro u hc hr hsub
    simp only [sessionReceivesPriceUpdate, Bool.and_eq_true,
      decide_eq_true_eq]
    refine ⟨?_, hsub⟩
    simp only [dispatchPriceUpdate, List.mem_flatMap]
    refine ⟨u, ?_, ?_⟩
    · refine List.mem_map.mpr ⟨(u, upper symbol),
        List.mem_filter.mpr ⟨hr, ?_⟩, rfl⟩
      simp
    · refine List.mem_map.mpr ⟨⟨sess.channel, u, "authenticated"⟩,
        List.mem_filter.mpr ⟨hc, ?_⟩, rfl⟩
      simp

/-- Witness for C8: a session subscribed to AAPL and not to MSFT receives
the AAPL update and not an MSFT one. -/
theorem C8_witness :
    sessionReceivesPriceUpdate [(1, "AAPL")] [⟨7, 1, "authenticated"⟩]
      ⟨7, ["AAPL"]⟩ "AAPL" = true ∧
    sessionReceivesPriceUpdate [(1, "AAPL")] [⟨7, 1, "authenticated"⟩]
      ⟨7, ["AAPL"]⟩ "MSFT" = false :=
  ⟨(C8_fanout [(1, "AAPL")] [⟨7, 1, "authenticated"⟩] ⟨7, ["AAPL"]⟩
      "AAPL").2 1 (by decide) (by decide) (by decide),
   (C8_fanout [(1, "AAPL")] [⟨7, 1, "authenticated"⟩] ⟨7, ["AAPL"]⟩
      "MSFT").1 (by decide)⟩

end Brokerage
